import Mathlib

/-!
Verification of src/examples/bulk_crawl_example.py (BulkCrawler client).

The script is a sequential HTTP client: it imports domain records from a
CSV in batches of 100, starts a bulk crawl with a fixed configuration,
polls two statistics endpoints to render a dashboard until a completion
condition holds, and exports results to a file.  Network responses are
modelled explicitly as inputs (an oracle of per-batch responses for the
importer, outcome values for the GET calls), and the client's visible
behaviour (batches sent, sleeps, loop termination, file written) is
computed from them, mirroring the Python control flow line by line.
-/

namespace BulkCrawl

/-- One domain record built from a CSV row, as assembled at lines 34-38 of
bulk_crawl_example.py (keys domain, webmasterEmail, maxPages). -/
structure DomainRecord where
  domain : String
  webmasterEmail : String
  maxPages : Int
deriving DecidableEq, Repr

/-- The response to one bulk-import POST as the importer consumes it:
the HTTP status code and the optional boolean success field of the JSON
body (none when the field is absent; the script tests the field for
truthiness via result.get, lines 55-57). -/
structure BulkResponse where
  status : Nat
  success : Option Bool
deriving DecidableEq, Repr

/-- The importer proceeds past a batch exactly when the response status is
200 (the code compares ==200, line 55) and the body's success field is
present and true (line 57); any other response makes it return False. -/
def batchSuccess (r : BulkResponse) : Bool :=
  r.status == 200 && r.success.getD false

/-- Written from the SPEC's words, for comparison with batchSuccess: the
spec calls a batch call successful unless the status is non-2xx or the
success flag is explicitly false in the body. -/
def specIndicatesSuccess (r : BulkResponse) : Bool :=
  (decide (200 ≤ r.status) && decide (r.status < 300)) && !(r.success == some false)

/-- An externally visible action of the importer: one POST carrying a
batch, or one fixed sleep (the 0.5-second pacing delay of line 68,
recorded in seconds). -/
inductive Event where
  | call (batch : List DomainRecord)
  | sleep (seconds : ℚ)
deriving DecidableEq, Repr

/-- Fuel-indexed chunking; the fuel only bounds the recursion depth and
any fuel of at least the list length gives the same result. -/
def chunksFuel : ℕ → List DomainRecord → List (List DomainRecord)
  | 0, _ => []
  | _ + 1, [] => []
  | n + 1, a :: t => (a :: t).take 100 :: chunksFuel n ((a :: t).drop 100)

/-- The consecutive batches of at most 100 records formed by the slicing
loop for i in range(0, len(domains), 100) with domains[i:i+100]
(lines 43-47). -/
def chunks100 (l : List DomainRecord) : List (List DomainRecord) :=
  chunksFuel l.length l

lemma chunksFuel_irrel (n : ℕ) :
    ∀ m (l : List DomainRecord), l.length ≤ n → l.length ≤ m →
      chunksFuel n l = chunksFuel m l := by
  induction n with
  | zero =>
    intro m l hn _
    have : l = [] := List.eq_nil_of_length_eq_zero (by omega)
    subst this
    cases m <;> rfl
  | succ k ih =>
    intro m l hn hm
    cases l with
    | nil => cases m <;> rfl
    | cons a t =>
      cases m with
      | zero => simp at hm
      | succ j =>
        simp only [chunksFuel]
        congr 1
        simp only [List.length_cons] at hn hm
        refine ih j ((a :: t).drop 100) ?_ ?_ <;>
          simp only [List.length_drop, List.length_cons] <;> omega

/-- The batch loop of lines 46-68: for each chunk in order, one POST; on a
response that does not satisfy batchSuccess the function returns False at
once (lines 62, 65) without touching later chunks; on success it sleeps
0.5 s (line 68) and continues; it returns True after the last chunk
(line 71).  The i-th remaining batch is answered by oracle i.  Returns
the emitted event trace and the boolean result. -/
def runBatches (oracle : ℕ → BulkResponse) :
    List (List DomainRecord) → List Event × Bool
  | [] => ([], true)
  | b :: rest =>
    if batchSuccess (oracle 0) then
      let r := runBatches (fun n => oracle (n + 1)) rest
      (.call b :: .sleep (1 / 2) :: r.1, r.2)
    else ([.call b], false)

/-- import_domains_from_csv (lines 26-71) after the CSV has been parsed
into records: partition into chunks of 100 and run the batch loop, with
oracle i answering the i-th import POST. -/
def importRun (domains : List DomainRecord) (oracle : ℕ → BulkResponse) :
    List Event × Bool :=
  runBatches oracle (chunks100 domains)

/-- The batches actually sent over the wire, in order, read off a trace. -/
def callsOf (tr : List Event) : List (List DomainRecord) :=
  tr.filterMap fun e => match e with | .call b => some b | _ => none

lemma chunks100_nil : chunks100 [] = [] := rfl

lemma chunks100_cons (l : List DomainRecord) (h : l ≠ []) :
    chunks100 l = l.take 100 :: chunks100 (l.drop 100) := by
  cases l with
  | nil => exact absurd rfl h
  | cons a t =>
    show chunksFuel (t.length + 1) (a :: t) = _
    simp only [chunksFuel]
    congr 1
    exact chunksFuel_irrel t.length _ ((a :: t).drop 100)
      (by simp only [List.length_drop, List.length_cons]; omega)
      le_rfl

lemma chunks100_join_fuel (n : ℕ) :
    ∀ l : List DomainRecord, l.length ≤ n → (chunks100 l).flatten = l := by
  induction n with
  | zero =>
    intro l hl
    have : l = [] := List.eq_nil_of_length_eq_zero (by omega)
    subst this
    simp [chunks100_nil]
  | succ m ih =>
    intro l hl
    by_cases h : l = []
    · subst h; simp [chunks100_nil]
    · have hne : l.length ≠ 0 := fun h0 => h (List.eq_nil_of_length_eq_zero h0)
      rw [chunks100_cons l h]
      have hrec := ih (l.drop 100) (by simp only [List.length_drop]; omega)
      simp [hrec, List.take_append_drop]

/-- Concatenating the chunks recovers the record list in file order. -/
lemma chunks100_join (l : List DomainRecord) : (chunks100 l).flatten = l :=
  chunks100_join_fuel l.length l le_rfl

lemma chunks100_le_fuel (n : ℕ) :
    ∀ l : List DomainRecord, l.length ≤ n →
      ∀ b ∈ chunks100 l, b.length ≤ 100 := by
  induction n with
  | zero =>
    intro l hl
    have : l = [] := List.eq_nil_of_length_eq_zero (by omega)
    subst this
    simp [chunks100_nil]
  | succ m ih =>
    intro l hl b hb
    by_cases h : l = []
    · subst h; simp [chunks100_nil] at hb
    · have hne : l.length ≠ 0 := fun h0 => h (List.eq_nil_of_length_eq_zero h0)
      rw [chunks100_cons l h] at hb
      rcases List.mem_cons.mp hb with hb | hb
      · subst hb
        simp
      · exact ih (l.drop 100) (by simp only [List.length_drop]; omega) b hb

/-- Every chunk holds at most 100 records. -/
lemma chunks100_le (l : List DomainRecord) :
    ∀ b ∈ chunks100 l, b.length ≤ 100 :=
  chunks100_le_fuel l.length l le_rfl

lemma chunks100_full_fuel (n : ℕ) :
    ∀ l : List DomainRecord, l.length ≤ n →
      ∀ b ∈ (chunks100 l).dropLast, b.length = 100 := by
  induction n with
  | zero =>
    intro l hl
    have : l = [] := List.eq_nil_of_length_eq_zero (by omega)
    subst this
    simp [chunks100_nil]
  | succ m ih =>
    intro l hl b hb
    by_cases h : l = []
    · subst h; simp [chunks100_nil] at hb
    · rw [chunks100_cons l h] at hb
      by_cases hd : l.drop 100 = []
      · rw [hd, chunks100_nil] at hb
        simp at hb
      · have hne : l.length ≠ 0 := fun h0 => h (List.eq_nil_of_length_eq_zero h0)
        have hlen : 100 < l.length := by
          by_contra hc
          exact hd (List.drop_eq_nil_of_le (by omega))
        have hcons : chunks100 (l.drop 100) ≠ [] := by
          rw [chunks100_cons _ hd]; simp
        rw [List.dropLast_cons_of_ne_nil hcons] at hb
        rcases List.mem_cons.mp hb with hb | hb
        · subst hb
          simp [List.length_take]
          omega
        · exact ih (l.drop 100) (by simp only [List.length_drop]; omega) b hb

/-- Every chunk except possibly the last holds exactly 100 records. -/
lemma chunks100_full (l : List DomainRecord) :
    ∀ b ∈ (chunks100 l).dropLast, b.length = 100 :=
  chunks100_full_fuel l.length l le_rfl

lemma chunks100_length_fuel (n : ℕ) :
    ∀ l : List DomainRecord, l.length ≤ n →
      (chunks100 l).length = (l.length + 99) / 100 := by
  induction n with
  | zero =>
    intro l hl
    have : l = [] := List.eq_nil_of_length_eq_zero (by omega)
    subst this
    simp [chunks100_nil]
  | succ m ih =>
    intro l hl
    by_cases h : l = []
    · subst h; simp [chunks100_nil]
    · have hne : l.length ≠ 0 := fun h0 => h (List.eq_nil_of_length_eq_zero h0)
      rw [chunks100_cons l h]
      have hrec := ih (l.drop 100) (by simp only [List.length_drop]; omega)
      simp only [List.length_cons, hrec, List.length_drop]
      omega

/-- There are ceil(N/100) chunks. -/
lemma chunks100_length (l : List DomainRecord) :
    (chunks100 l).length = (l.length + 99) / 100 :=
  chunks100_length_fuel l.length l le_rfl

/-- The event trace the batch loop produces when every response succeeds:
each chunk call followed by the 0.5-second pacing sleep. -/
def fullTrace : List (List DomainRecord) → List Event
  | [] => []
  | b :: rest => .call b :: .sleep (1 / 2) :: fullTrace rest

lemma callsOf_fullTrace (bs : List (List DomainRecord)) :
    callsOf (fullTrace bs) = bs := by
  induction bs with
  | nil => rfl
  | cons b rest ih => simp [fullTrace, callsOf, List.filterMap] at ih ⊢; exact ih

/-- When every oracle answer passes the success check, the loop emits the
full call/sleep trace and returns True. -/
lemma runBatches_all_ok (bs : List (List DomainRecord)) :
    ∀ oracle : ℕ → BulkResponse,
      (∀ k, k < bs.length → batchSuccess (oracle k) = true) →
      runBatches oracle bs = (fullTrace bs, true) := by
  induction bs with
  | nil => intro oracle hor; rfl
  | cons b rest ih =>
    intro oracle hor
    have h0 : batchSuccess (oracle 0) = true := hor 0 (by simp)
    have hrec := ih (fun n => oracle (n + 1))
      (fun k hk => hor (k + 1) (by simp; omega))
    simp [runBatches, h0, hrec, fullTrace]

/-- The loop returns True exactly when every batch's response passes the
success check. -/
lemma runBatches_ok_iff (bs : List (List DomainRecord)) :
    ∀ oracle : ℕ → BulkResponse,
      ((runBatches oracle bs).2 = true ↔
        ∀ k, k < bs.length → batchSuccess (oracle k) = true) := by
  induction bs with
  | nil => intro oracle; simp [runBatches]
  | cons b rest ih =>
    intro oracle
    by_cases h0 : batchSuccess (oracle 0) = true
    · have hrec := ih (fun n => oracle (n + 1))
      simp only [runBatches, h0, if_true]
      constructor
      · intro hok k hk
        rcases k with _ | j
        · exact h0
        · exact hrec.mp hok j (by simp at hk; omega)
      · intro hall
        exact hrec.mpr fun k hk => hall (k + 1) (by simp; omega)
    · simp only [runBatches, h0, if_false]
      constructor
      · intro hfalse; exact absurd hfalse (by simp)
      · intro hall; exact absurd (hall 0 (by simp)) h0

/-- When the loop returns False there is a first failing batch index k:
all earlier responses passed, response k failed, and the batches sent are
exactly the chunks up to and including chunk k — none after it. -/
lemma runBatches_fail (bs : List (List DomainRecord)) :
    ∀ oracle : ℕ → BulkResponse,
      (runBatches oracle bs).2 = false →
      ∃ k, k < bs.length ∧ batchSuccess (oracle k) = false ∧
        (∀ j, j < k → batchSuccess (oracle j) = true) ∧
        callsOf (runBatches oracle bs).1 = bs.take (k + 1) := by
  induction bs with
  | nil => intro oracle h; simp [runBatches] at h
  | cons b rest ih =>
    intro oracle h
    by_cases h0 : batchSuccess (oracle 0) = true
    · simp only [runBatches, h0, if_true] at h ⊢
      obtain ⟨k, hk, hfail, hpre, hcalls⟩ := ih (fun n => oracle (n + 1)) h
      refine ⟨k + 1, by simp; omega, hfail, ?_, ?_⟩
      · intro j hj
        rcases j with _ | i
        · exact h0
        · exact hpre i (by omega)
      · simp [callsOf, List.filterMap] at hcalls ⊢
        exact hcalls
    · refine ⟨0, by simp, by simpa using h0, by omega, ?_⟩
      simp only [runBatches, h0, if_false]
      simp [callsOf]

/-! ## Statistics, the monitor loop and the dashboard -/

/-- A statistics mapping as the monitor consumes it: the data object of a
stats response, a finite map from counter name to integer value (Python
dict, first binding wins). -/
def Stats := List (String × Int)

instance : DecidableEq Stats := by
  unfold Stats
  infer_instance

/-- dict.get(key, default) on a statistics mapping (lines 143-154). -/
def sget (m : Stats) (k : String) (d : Int) : Int :=
  match m.find? (fun p => p.1 == k) with
  | some p => p.2
  | none => d

/-- What one requests.get call produced, as get_stats observes it: exn
when the request or the JSON decoding raised (the except branch of
lines 123-125 fires), or a response with its HTTP status and the optional
data object of the decoded body (.get with default {}, lines 116-117). -/
inductive GetOutcome where
  | exn
  | resp (status : Nat) (data : Option Stats)
deriving DecidableEq

/-- get_stats (lines 109-125) given the outcome of the domain-stats GET
and of the queue-stats GET: inside the try, each mapping is the response
body's data object when that response's status is 200 and {} otherwise;
if either call raised, the except branch returns both mappings empty. -/
def get_stats (d q : GetOutcome) : Stats × Stats :=
  match d, q with
  | .resp ds dd, .resp qs qd =>
      ((if ds == 200 then dd.getD [] else []),
       (if qs == 200 then qd.getD [] else []))
  | _, _ => ([], [])

/-- The completion test of line 196 on the two fetched mappings:
pending == 0 and crawling == 0 and queue_processing == 0, each counter
read with default 0 (lines 147, 146, 152). -/
def isDone (dom q : Stats) : Bool :=
  sget dom "pendingDomains" 0 == 0 &&
  sget dom "crawlingDomains" 0 == 0 &&
  sget q "processing" 0 == 0

/-- What one iteration of the while True loop of lines 136-213 runs into:
a successfully fetched pair of mappings (with a flag telling whether a
KeyboardInterrupt arrives during the time.sleep of line 206), an
Exception raised inside the try (with a flag telling whether a
KeyboardInterrupt arrives during the recovery sleep of line 213), or a
KeyboardInterrupt raised during the fetch/render/check part itself. -/
inductive PollEvent where
  | snapshot (dom q : Stats) (intrSleep : Bool)
  | error (intrRecoverySleep : Bool)
  | interrupt
deriving DecidableEq

/-- How monitor_progress ends: the completion branch of lines 196-203
(break after the final summary), the KeyboardInterrupt handler of
lines 208-210 (break after the stopped-by-user message), or an exception
escaping the loop unhandled. -/
inductive MonitorOutcome where
  | completed
  | stopped
  | unhandledInterrupt
deriving DecidableEq

/-- The control flow of monitor_progress (lines 136-213) over a finite
prefix of iteration events; none means the loop is still running when the
supplied events run out.  A snapshot iteration first renders and tests
the completion condition (line 196) and breaks on it; otherwise the
line-206 sleep runs, where an interrupt is caught by the handler of
line 208 (break).  An exception lands in the handler of lines 211-213,
whose print and sleep run OUTSIDE any try: an interrupt there propagates
out of the function unhandled; otherwise the loop continues. -/
def monitorRun : List PollEvent → Option MonitorOutcome
  | [] => none
  | .snapshot dom q intr :: rest =>
      if isDone dom q then some .completed
      else if intr then some .stopped
      else monitorRun rest
  | .error intr :: rest =>
      if intr then some .unhandledInterrupt else monitorRun rest
  | .interrupt :: _ => some .stopped

/-! ## Crawl-start configuration -/

/-- The nested crawlConfig object of lines 80-87. -/
structure InnerCrawlConfig where
  maxPages : Int
  maxDepth : Int
  politenessDelay : Int
  respectRobotsTxt : Bool
  restrictToSeedDomain : Bool
  requestTimeout : Int
deriving DecidableEq, Repr

/-- The request body of the crawl-start POST, lines 77-88. -/
structure CrawlStartBody where
  maxConcurrent : Int
  emailNotifications : Bool
  crawlConfig : InnerCrawlConfig
deriving DecidableEq, Repr

/-- crawl_config as built by start_bulk_crawl (lines 77-88) from the
max_concurrent argument: every other field is a literal. -/
def crawl_config (max_concurrent : Int) : CrawlStartBody :=
  { maxConcurrent := max_concurrent
    emailNotifications := true
    crawlConfig :=
      { maxPages := 5
        maxDepth := 3
        politenessDelay := 1000
        respectRobotsTxt := true
        restrictToSeedDomain := true
        requestTimeout := 30000 } }

/-! ## Results export -/

/-- export_results (lines 231-242) given the export GET's status and body
text: some content written to the output file when the status is exactly
200 (the code compares ==200, line 237, and writes response.text
verbatim, lines 238-239), none — no file touched — otherwise. -/
def export_results (status : Nat) (body : String) : Option String :=
  if status == 200 then some body else none

/-! ## CSV row parsing -/

/-- Look a column up in a CSV row (the row dict of csv.DictReader,
modelled as a name-to-cell list; a column missing from the header is a
missing key). -/
def rowGet (row : List (String × String)) (k : String) : Option String :=
  (row.find? (fun p => p.1 == k)).map (fun p => p.2)

def digitsCore : List Char → ℕ → Option ℕ
  | [], acc => some acc
  | c :: cs, acc =>
      if c.isDigit then digitsCore cs (acc * 10 + (c.toNat - 48)) else none

def digitsVal (cs : List Char) : Option ℕ :=
  if cs.isEmpty then none else digitsCore cs 0

/-- Strip leading and trailing whitespace from a character list. -/
def stripWs (cs : List Char) : List Char :=
  ((cs.dropWhile Char.isWhitespace).reverse.dropWhile Char.isWhitespace).reverse

/-- Python's int(s) on a string: surrounding whitespace is stripped, then
an optional sign followed by at least one ASCII digit; anything else
(including the empty string) raises ValueError, modelled as none.
(Digit-grouping underscores and non-ASCII digits, which CPython also
accepts, are not modelled; no claim depends on them.) -/
def pyInt (s : String) : Option Int :=
  match stripWs s.data with
  | '+' :: cs => (digitsVal cs).map (fun n => (n : Int))
  | '-' :: cs => (digitsVal cs).map (fun n => -(n : Int))
  | cs => (digitsVal cs).map (fun n => (n : Int))

/-- One row of the reader loop, lines 33-38: row['domain'] and
row['webmaster_email'] must be present (KeyError otherwise), and
maxPages is int(row.get('max_pages', 5)) — the literal 5 when the column
is absent, otherwise int() of the cell string, which raises on a
non-numeric cell (in particular on the empty cell of a present but
unfilled column).  none models the raised exception, which
import_domains_from_csv does not catch. -/
def parseRow (row : List (String × String)) : Option DomainRecord :=
  match rowGet row "domain", rowGet row "webmaster_email" with
  | some d, some e =>
    match rowGet row "max_pages" with
    | none => some { domain := d, webmasterEmail := e, maxPages := 5 }
    | some s =>
        (pyInt s).map (fun n => { domain := d, webmasterEmail := e, maxPages := n })
  | _, _ => none

/-! ## Dashboard arithmetic -/

/-- progress_percent of line 186, computed in the total_domains > 0
branch: (completed / total_domains) * 100, as an exact rational (every
value the claims evaluate it at is exactly representable as a float). -/
def progress_percent (completed total : ℕ) : ℚ :=
  (completed : ℚ) / (total : ℚ) * 100

/-- The percentage of the Progress line 166:
completed / max(total_domains, 1) * 100. -/
def reported_percent (completed total : ℕ) : ℚ :=
  (completed : ℚ) / (max total 1 : ℕ) * 100

/-- filled_length of line 188: int(50 * progress_percent // 100), float
floor division then int() of an already integral value. -/
def filled_length (completed total : ℕ) : Int :=
  Int.floor ((50 : ℚ) * progress_percent completed total / 100)

/-- The bar string of line 189: filled_length block characters then
50 - filled_length dashes (Python string repetition by a negative count
is empty, matching toNat / truncated subtraction). -/
def barString (completed total : ℕ) : List Char :=
  List.replicate (filled_length completed total).toNat '█' ++
    List.replicate (50 - (filled_length completed total).toNat) '-'

/-! ## Helper lemmas -/

lemma runBatches_ok_calls (bs : List (List DomainRecord))
    (oracle : ℕ → BulkResponse) (h : (runBatches oracle bs).2 = true) :
    callsOf (runBatches oracle bs).1 = bs := by
  have hall := (runBatches_ok_iff bs oracle).mp h
  rw [runBatches_all_ok bs oracle hall]
  exact callsOf_fullTrace bs

lemma isDone_iff (dom q : Stats) :
    isDone dom q = true ↔
      (sget dom "pendingDomains" 0 = 0 ∧ sget dom "crawlingDomains" 0 = 0 ∧
        sget q "processing" 0 = 0) := by
  simp [isDone, Bool.and_eq_true, beq_iff_eq, and_assoc]

lemma monitorRun_no_error_event (events : List PollEvent)
    (h : PollEvent.error true ∉ events) :
    monitorRun events ≠ some .unhandledInterrupt := by
  induction events with
  | nil => simp [monitorRun]
  | cons e rest ih =>
    have hrest : PollEvent.error true ∉ rest := fun hm => h (List.mem_cons_of_mem e hm)
    have hhead : e ≠ PollEvent.error true := fun he => h (he ▸ List.mem_cons_self e rest)
    cases e with
    | snapshot dom q intr =>
      simp only [monitorRun]
      by_cases hd : isDone dom q
      · simp [hd]
      · cases intr with
        | false => simpa [hd] using ih hrest
        | true => simp [hd]
    | error intr =>
      cases intr with
      | false => simpa [monitorRun] using ih hrest
      | true => exact absurd rfl hhead
    | interrupt => simp [monitorRun]

/-! ## Concrete inputs used by counterexamples and witnesses -/

def oneRecord : List DomainRecord :=
  [{ domain := "example.com", webmasterEmail := "admin@example.com", maxPages := 5 }]

def threeRecords : List DomainRecord :=
  [{ domain := "a.com", webmasterEmail := "a@a", maxPages := 5 },
   { domain := "b.com", webmasterEmail := "b@b", maxPages := 7 },
   { domain := "c.com", webmasterEmail := "c@c", maxPages := 9 }]

/-- A server that answers every import POST with HTTP 201 and a true
success flag. -/
def oracle201 : ℕ → BulkResponse := fun _ => { status := 201, success := some true }

/-- A server that answers every import POST with HTTP 200 and a true
success flag. -/
def okOracle : ℕ → BulkResponse := fun _ => { status := 200, success := some true }

/-- Domain stats whose only non-zero counters are failedDomains and
completedDomains. -/
def failedOnlyDom : Stats := [("failedDomains", 7), ("completedDomains", 3)]

/-- Queue stats with pending and failed jobs but nothing processing. -/
def queuePendingOnly : Stats := [("pending", 3), ("failed", 2)]

/-- Domain stats with one pending domain (completion condition false). -/
def pendingDom : Stats := [("pendingDomains", 1)]

/-- A CSV row whose max_pages column is present but whose cell is empty. -/
def emptyCellRow : List (String × String) :=
  [("domain", "example.com"), ("webmaster_email", "admin@example.com"),
   ("max_pages", "")]

/-- A CSV row without a max_pages column. -/
def noColumnRow : List (String × String) :=
  [("domain", "example.com"), ("webmaster_email", "admin@example.com")]

/-- A domain-stats GET outcome: HTTP 200 with a data object. -/
def domOkOutcome : GetOutcome := .resp 200 (some [("pendingDomains", 5)])

/-! ## Claims -/

/-- C1, counterexample.  The claim calls a batch call successful when its
status is 2xx and no explicit false success flag is in the body, and says
the importer returns true iff every call succeeded.  A server answering
HTTP 201 with success true satisfies that for every batch, yet
import_domains_from_csv compares the status with ==200 (line 55) and
returns False on the very first batch. -/
theorem import_spec_success_cex :
    specIndicatesSuccess (oracle201 0) = true ∧
      (importRun oneRecord oracle201).2 = false := by
  decide

/-- C1, amended: success of a batch call means HTTP status exactly 200
and a success field present and true in the body.  The importer returns
true iff every batch call succeeded in this sense; when it returns false
there is a first failing index k such that every earlier call succeeded
and exactly the chunks up to and including chunk k were sent — no
subsequent batch. -/
theorem import_stops_at_first_code_failure
    (domains : List DomainRecord) (oracle : ℕ → BulkResponse) :
    ((importRun domains oracle).2 = true ↔
       ∀ k, k < (chunks100 domains).length → batchSuccess (oracle k) = true) ∧
    ((importRun domains oracle).2 = true →
       callsOf (importRun domains oracle).1 = chunks100 domains) ∧
    ((importRun domains oracle).2 = false →
       ∃ k, k < (chunks100 domains).length ∧ batchSuccess (oracle k) = false ∧
         (∀ j, j < k → batchSuccess (oracle j) = true) ∧
         callsOf (importRun domains oracle).1 = (chunks100 domains).take (k + 1)) := by
  refine ⟨runBatches_ok_iff (chunks100 domains) oracle, ?_, ?_⟩
  · exact runBatches_ok_calls (chunks100 domains) oracle
  · exact runBatches_fail (chunks100 domains) oracle

/-- C1, witness: with a server answering 200/success for every batch, the
one-record import returns True. -/
theorem import_stops_witness : (importRun oneRecord okOracle).2 = true :=
  (import_stops_at_first_code_failure oneRecord okOracle).1.mpr (by decide)

/-- C2: an iteration of the monitor loop that fetched the mappings dom
and q breaks with the completion summary exactly when pendingDomains,
crawlingDomains and queue processing — all read with default 0 — are
simultaneously zero; no other counter occurs in the condition, and
otherwise the loop goes on with the remaining iterations. -/
theorem monitor_completes_iff_three_zero (dom q : Stats) (rest : List PollEvent) :
    ((sget dom "pendingDomains" 0 = 0 ∧ sget dom "crawlingDomains" 0 = 0 ∧
        sget q "processing" 0 = 0) →
      monitorRun (.snapshot dom q false :: rest) = some .completed) ∧
    (¬(sget dom "pendingDomains" 0 = 0 ∧ sget dom "crawlingDomains" 0 = 0 ∧
        sget q "processing" 0 = 0) →
      monitorRun (.snapshot dom q false :: rest) = monitorRun rest) := by
  constructor
  · intro h
    have hd : isDone dom q = true := (isDone_iff dom q).mpr h
    simp [monitorRun, hd]
  · intro h
    have hd : isDone dom q = false := by
      cases hI : isDone dom q with
      | false => rfl
      | true => exact absurd ((isDone_iff dom q).mp hI) h
    simp [monitorRun, hd]

/-- C2, witness: a snapshot with failedDomains = 7 and queue pending = 3
but none of the three gating counters non-zero terminates the loop with
the completion summary. -/
theorem monitor_completes_witness :
    monitorRun [.snapshot failedOnlyDom queuePendingOnly false] = some .completed :=
  (monitor_completes_iff_three_zero failedOnlyDom queuePendingOnly []).1 (by decide)

/-- C3: when every batch call succeeds, the importer sends exactly the
consecutive chunks of at most 100 records in file order —
ceil(N/100) = (N+99)/100 calls, every chunk before the last holding
exactly 100 records and their concatenation restoring the input — and
the emitted trace is each chunk call followed by the 0.5-second pacing
sleep (fullTrace). -/
theorem import_batching_and_pacing
    (domains : List DomainRecord) (oracle : ℕ → BulkResponse)
    (h : ∀ k, k < (chunks100 domains).length → batchSuccess (oracle k) = true) :
    importRun domains oracle = (fullTrace (chunks100 domains), true) ∧
    callsOf (importRun domains oracle).1 = chunks100 domains ∧
    (callsOf (importRun domains oracle).1).length = (domains.length + 99) / 100 ∧
    (chunks100 domains).flatten = domains ∧
    (∀ b ∈ chunks100 domains, b.length ≤ 100) ∧
    (∀ b ∈ (chunks100 domains).dropLast, b.length = 100) := by
  have hrun := runBatches_all_ok (chunks100 domains) oracle h
  have hcalls : callsOf (importRun domains oracle).1 = chunks100 domains := by
    show callsOf (runBatches oracle (chunks100 domains)).1 = chunks100 domains
    rw [hrun]
    exact callsOf_fullTrace (chunks100 domains)
  refine ⟨hrun, hcalls, ?_, chunks100_join domains, chunks100_le domains,
    chunks100_full domains⟩
  rw [hcalls, chunks100_length]

/-- C3, witness: three records against an all-success server form one
batch, sent as one call followed by the half-second sleep. -/
theorem import_batching_witness :
    importRun threeRecords okOracle = (fullTrace (chunks100 threeRecords), true) ∧
    callsOf (importRun threeRecords okOracle).1 = chunks100 threeRecords ∧
    (callsOf (importRun threeRecords okOracle).1).length =
      (threeRecords.length + 99) / 100 ∧
    (chunks100 threeRecords).flatten = threeRecords ∧
    (∀ b ∈ chunks100 threeRecords, b.length ≤ 100) ∧
    (∀ b ∈ (chunks100 threeRecords).dropLast, b.length = 100) :=
  import_batching_and_pacing threeRecords okOracle (by decide)

/-- C4: the crawl-start body built by start_bulk_crawl carries the fixed
nested parameters maxPages 5, maxDepth 3, politenessDelay 1000,
respectRobotsTxt, restrictToSeedDomain and requestTimeout 30000 for
every maxConcurrent value, and two bodies differ at most in their
maxConcurrent field. -/
theorem crawl_config_fixed (mc : Int) :
    (crawl_config mc).crawlConfig =
      { maxPages := 5, maxDepth := 3, politenessDelay := 1000,
        respectRobotsTxt := true, restrictToSeedDomain := true,
        requestTimeout := 30000 } ∧
    (crawl_config mc).maxConcurrent = mc ∧
    ∀ mc2 : Int,
      (crawl_config mc).crawlConfig = (crawl_config mc2).crawlConfig ∧
      (crawl_config mc).emailNotifications = (crawl_config mc2).emailNotifications :=
  ⟨rfl, rfl, fun _ => ⟨rfl, rfl⟩⟩

/-- C5, counterexample.  The claim says a 2xx export response gets its
body written to the file; export_results compares the status with ==200
(line 237), so the 2xx status 201 writes nothing. -/
theorem export_2xx_cex :
    export_results 201 "domain,status" = none ∧ 200 ≤ 201 ∧ 201 < 300 := by
  decide

/-- C5, amended: the exporter writes the response text verbatim when the
status is exactly 200, and writes nothing for any other status
(including other 2xx codes). -/
theorem export_writes_only_on_200 (status : Nat) (body : String) :
    (status = 200 → export_results status body = some body) ∧
    (status ≠ 200 → export_results status body = none) := by
  constructor
  · intro h; simp [export_results, h]
  · intro h; simp [export_results, h]

/-- C5, witness: a 200 response is written verbatim and a 404 response
writes nothing. -/
theorem export_writes_witness :
    export_results 200 "domain,status" = some "domain,status" ∧
    export_results 404 "domain,status" = none :=
  ⟨(export_writes_only_on_200 200 "domain,status").1 rfl,
   (export_writes_only_on_200 404 "domain,status").2 (by decide)⟩

/-- C6, counterexample.  The claim says an empty max_pages cell defaults
to 5; the code runs int(row.get('max_pages', 5)) (line 37), the present
key returns the empty cell string, and int('') raises ValueError — no
record with maxPages 5 is produced (the exception propagates out of the
importer). -/
theorem max_pages_empty_cex :
    rowGet emptyCellRow "max_pages" = some "" ∧ parseRow emptyCellRow = none := by
  decide

/-- C6, amended: maxPages is the integer value of the max_pages cell when
the cell parses as an integer, and defaults to 5 only when the max_pages
column is absent from the row; a present but empty cell raises instead of
defaulting. -/
theorem max_pages_default_absent_only (row : List (String × String))
    (d e : String) (hd : rowGet row "domain" = some d)
    (he : rowGet row "webmaster_email" = some e) :
    (rowGet row "max_pages" = none →
      parseRow row = some { domain := d, webmasterEmail := e, maxPages := 5 }) ∧
    (∀ s n, rowGet row "max_pages" = some s → pyInt s = some n →
      parseRow row = some { domain := d, webmasterEmail := e, maxPages := n }) ∧
    (rowGet row "max_pages" = some "" → parseRow row = none) := by
  refine ⟨?_, ?_, ?_⟩
  · intro hm
    simp [parseRow, hd, he, hm]
  · intro s n hm hp
    simp [parseRow, hd, he, hm, hp]
  · intro hm
    have hempty : pyInt "" = none := rfl
    simp [parseRow, hd, he, hm, hempty]

/-- C6, witness: a row without the max_pages column parses with the
default 5, and a row whose cell is the digit string 7 parses with 7. -/
theorem max_pages_witness :
    parseRow noColumnRow =
      some { domain := "example.com", webmasterEmail := "admin@example.com",
             maxPages := 5 } :=
  (max_pages_default_absent_only noColumnRow "example.com" "admin@example.com"
    (by decide) (by decide)).1 (by decide)

/-- C7: for completedDomains 50 of totalDomains 200 the dashboard reports
25% on both percentage lines, the bar's filled prefix is
floor(50·(50/200·100)/100) = 12 characters, and the rendered bar is 50
characters of which exactly 12 are the filled block. -/
theorem dashboard_50_of_200 :
    reported_percent 50 200 = 25 ∧ progress_percent 50 200 = 25 ∧
    filled_length 50 200 = 12 ∧ (barString 50 200).count '█' = 12 ∧
    (barString 50 200).length = 50 := by
  have h : filled_length 50 200 = 12 := by norm_num [filled_length, progress_percent]
  refine ⟨by norm_num [reported_percent], by norm_num [progress_percent], h, ?_, ?_⟩
  · simp [barString, h, List.count_append, List.count_replicate]
  · simp [barString, h]

/-- C8, counterexample.  The claim says a failure of either statistics
GET leaves the other call's mapping intact.  With the domain call
succeeding (200 with data) but the queue call raising, get_stats lands in
its except branch (lines 123-125) and returns BOTH mappings empty: the
domain mapping, [("pendingDomains", 5)] had both calls answered, is
dropped. -/
theorem stats_exn_cex :
    (get_stats domOkOutcome (.resp 200 (some []))).1 = [("pendingDomains", 5)] ∧
    (get_stats domOkOutcome .exn).1 = [] := by
  decide

/-- C8, amended: when both GET calls return HTTP responses the two are
independent — a call's mapping is its body's data object iff its own
status is 200 and empty otherwise, whatever the other call returned —
but an exception during either call empties both mappings; in every case
get_stats returns a value (the loop is never aborted by a stats
failure). -/
theorem stats_status_independent (dd qd : Option Stats) (ds qs : Nat) :
    ((get_stats (.resp 200 dd) (.resp qs qd)).1 = dd.getD []) ∧
    ((get_stats (.resp ds dd) (.resp 200 qd)).2 = qd.getD []) ∧
    (ds ≠ 200 → (get_stats (.resp ds dd) (.resp qs qd)).1 = []) ∧
    (qs ≠ 200 → (get_stats (.resp ds dd) (.resp qs qd)).2 = []) ∧
    (get_stats .exn (.resp qs qd) = ([], []) ∧
      get_stats (.resp ds dd) .exn = ([], []) ∧
      get_stats .exn .exn = ([], [])) := by
  refine ⟨by simp [get_stats], by simp [get_stats], ?_, ?_, rfl, rfl, rfl⟩
  · intro h; simp [get_stats, h]
  · intro h; simp [get_stats, h]

/-- C8, witness: a 200 domain response keeps its data while the queue
call answers 500, and a 500 domain response yields an empty domain
mapping. -/
theorem stats_status_witness :
    (get_stats (.resp 200 (some [("pendingDomains", 5)]))
        (.resp 500 (some [("processing", 2)]))).1 =
      (some [("pendingDomains", 5)] : Option Stats).getD [] ∧
    (get_stats (.resp 500 (some [("pendingDomains", 5)]))
        (.resp 500 (some [("processing", 2)]))).1 = [] :=
  ⟨(stats_status_independent (some [("pendingDomains", 5)])
      (some [("processing", 2)]) 500 500).1,
   (stats_status_independent (some [("pendingDomains", 5)])
      (some [("processing", 2)]) 500 500).2.2.1 (by decide)⟩

/-- C9, counterexample.  The claim says a keyboard interrupt at any point
of an iteration, its sleeps included, exits the loop cleanly.  The
time.sleep of line 213 runs inside the except-Exception handler, outside
any try: an interrupt arriving during that recovery sleep propagates out
of monitor_progress unhandled instead of producing the clean stop. -/
theorem interrupt_unhandled_cex :
    monitorRun [.error true] = some .unhandledInterrupt ∧
      monitorRun [.error true] ≠ some .stopped := by
  decide

/-- C9, amended: an interrupt during the fetch/render/check part of an
iteration or during the normal inter-poll sleep of line 206 is caught by
the KeyboardInterrupt handler and ends the loop cleanly, and no run
whose error-handler sleeps are interrupt-free ends in an unhandled
propagation; only an interrupt during the recovery sleep inside the
except-Exception handler (line 213) escapes unhandled. -/
theorem interrupt_clean_outside_error_sleep (events : List PollEvent) :
    ((PollEvent.error true) ∉ events →
      monitorRun events ≠ some .unhandledInterrupt) ∧
    (monitorRun (.interrupt :: events) = some .stopped) ∧
    (∀ dom q, isDone dom q = false →
      monitorRun (.snapshot dom q true :: events) = some .stopped) := by
  refine ⟨monitorRun_no_error_event events, rfl, ?_⟩
  intro dom q h
  simp [monitorRun, h]

/-- C9, witness: an interrupt during the render of the first iteration,
or during the sleep after a not-yet-complete snapshot, stops the loop
cleanly. -/
theorem interrupt_clean_witness :
    monitorRun [.interrupt] = some .stopped ∧
    monitorRun [.snapshot pendingDom [] true] = some .stopped :=
  ⟨(interrupt_clean_outside_error_sleep []).2.1,
   (interrupt_clean_outside_error_sleep []).2.2 pendingDom [] (by decide)⟩

/-- C10: when both statistics fetches fail, get_stats hands the loop two
empty mappings, every counter read from them is the default 0, the
line-196 completion condition holds, and the iteration declares the crawl
completed. -/
theorem empty_stats_completes (rest : List PollEvent) (intr : Bool) :
    get_stats .exn .exn = ([], []) ∧
    (∀ k : String, sget ([] : Stats) k 0 = 0) ∧
    isDone ([] : Stats) ([] : Stats) = true ∧
    monitorRun (.snapshot ([] : Stats) ([] : Stats) intr :: rest) =
      some .completed := by
  refine ⟨rfl, fun k => rfl, rfl, ?_⟩
  simp [monitorRun, isDone, sget]

end BulkCrawl
